import Mathlib

/-!
# Verification of the App Store download tracker pipeline

Shallow embedding of `fetch_appstore_downloads.py` (class
`AppStoreDownloadTracker`): the fetch-outcome classification of
`get_sales_report`, the report normalizer `parse_report`, and the sink
writer `save_to_sheets`, together with theorems settling the specification
claims about them.

Modelling conventions:
* Python `None`/NaN cells are `Option`/`Value.na`; pandas column access and
  ragged-row padding are modelled explicitly.
* Python exceptions (`KeyError`, `ValueError`, `TypeError`) become an
  explicit `Except PyError` result.
* Python floats are modelled as exact rationals produced by a decimal
  parser (the reports' numeric fields are finite decimals; non-finite
  float literals are not modelled).
* The outbound HTTP call is modelled by passing the received response as a
  value; gzip decompression is an abstract function parameter.
-/

/-- A cell value inside a pandas `DataFrame`: a string, an integer
(`astype(int)` result), a float (`astype(float)` result, modelled as an
exact rational), or a missing value (`None`/NaN). -/
inductive Value where
  | str (s : String)
  | int (i : Int)
  | flt (q : Rat)
  | na
deriving Repr, DecidableEq

/-- The Python exceptions that `parse_report` can raise. -/
inductive PyError where
  | keyError (col : String)
  | valueError (msg : String)
  | typeError (msg : String)
deriving Repr, DecidableEq

/-- A pandas `DataFrame` after normalization: an ordered list of column
names and the rows (each row listing the cells in column order). -/
structure DataFrame where
  columns : List String
  rows : List (List Value)
deriving Repr, DecidableEq

/-- A raw cell as read from the tab-separated text: `none` models the NaN
padding pandas inserts for a ragged (too short) data row. -/
abbrev Cell := Option String

/-- The raw `DataFrame` built by `pd.DataFrame(data, columns=header)`:
string cells addressed by column name, rows possibly shorter than the
header (padded with NaN on access). -/
structure RawFrame where
  columns : List String
  rows : List (List String)
deriving Repr, DecidableEq

/-- Split a character list at every character satisfying `p`; splitting
the empty list yields one empty field, adjacent separators yield empty
fields (the semantics of Python `str.split(sep)`). -/
def pySplitP (p : Char → Bool) : List Char → List (List Char)
  | [] => [[]]
  | c :: rest =>
    let r := pySplitP p rest
    if p c then [] :: r
    else
      match r with
      | [] => [[c]]
      | h :: t => (c :: h) :: t

/-- Python `str.split(sep)` for a one-character separator. -/
def pySplit (sep : Char) : List Char → List (List Char) :=
  pySplitP (· = sep)

/-- Python whitespace characters stripped by `str.strip()`. -/
def isPySpace (c : Char) : Bool :=
  c = ' ' || c = '\t' || c = '\n' || c = '\r' || c = '\x0b' || c = '\x0c'

/-- Python `str.strip()`: drop leading and trailing whitespace. -/
def pyStrip (l : List Char) : List Char :=
  ((l.dropWhile isPySpace).reverse.dropWhile isPySpace).reverse

/-- Interpret a nonempty list of decimal digit characters as a natural
number; `none` if empty or a non-digit occurs. -/
def digitsToNat : List Char → Option Nat
  | [] => none
  | l => l.foldl (fun acc c =>
      match acc with
      | none => none
      | some n => if c.isDigit then some (n * 10 + (c.toNat - '0'.toNat)) else none)
      (some 0)

/-- Python `int(s)` on a string: optional surrounding whitespace, optional
sign, decimal digits; anything else raises `ValueError`.  (Underscore
digit grouping, accepted by CPython, is not modelled; the reports' Units
fields are plain digit strings.) -/
def pyInt (s : String) : Except PyError Int :=
  let l := pyStrip s.data
  let core : Except PyError Int :=
    match l with
    | '-' :: rest =>
      match digitsToNat rest with
      | some n => .ok (-(n : Int))
      | none => .error (.valueError ("invalid literal for int() with base 10: " ++ s))
    | '+' :: rest =>
      match digitsToNat rest with
      | some n => .ok (n : Int)
      | none => .error (.valueError ("invalid literal for int() with base 10: " ++ s))
    | _ =>
      match digitsToNat l with
      | some n => .ok (n : Int)
      | none => .error (.valueError ("invalid literal for int() with base 10: " ++ s))
  core

/-- Powers of ten, kept as a plain structural recursion so that concrete
evaluations reduce inside the kernel. -/
def pow10 : Nat → Nat
  | 0 => 1
  | n + 1 => 10 * pow10 n

/-- Parse an unsigned decimal (digits, optionally a point and fraction
digits, at least one digit overall) into numerator and denominator. -/
def decimalCore (l : List Char) : Option (Nat × Nat) :=
  match pySplit '.' l with
  | [intPart] =>
    match digitsToNat intPart with
    | some n => some (n, 1)
    | none => none
  | [intPart, fracPart] =>
    if intPart = [] ∧ fracPart = [] then none
    else
      let ip : Option Nat := if intPart = [] then some 0 else digitsToNat intPart
      let fp : Option Nat := if fracPart = [] then some 0 else digitsToNat fracPart
      match ip, fp with
      | some i, some f => some (i * pow10 fracPart.length + f, pow10 fracPart.length)
      | _, _ => none
  | _ => none

/-- Python `float(s)` restricted to finite decimal literals with an
optional exponent: optional surrounding whitespace and sign, digits with
an optional fractional part, optional `e`/`E` exponent.  `inf`/`nan`
literals are not modelled (they do not occur in sales reports). -/
def pyFloat (s : String) : Except PyError Rat :=
  let parseExp : List Char → Option Int := fun e =>
    match e with
    | '-' :: rest => (digitsToNat rest).map (fun n => -(n : Int))
    | '+' :: rest => (digitsToNat rest).map (fun n => (n : Int))
    | _ => (digitsToNat e).map (fun n => (n : Int))
  let build : Bool → Nat × Nat → Int → Rat := fun neg nd ex =>
    let num : Int :=
      if 0 ≤ ex then (nd.1 * pow10 ex.toNat : Nat) else (nd.1 : Int)
    let den : Nat :=
      if 0 ≤ ex then nd.2 else nd.2 * pow10 (-ex).toNat
    mkRat (if neg then -num else num) den
  let core : List Char → Option Rat := fun body =>
    let (neg, rest) :=
      match body with
      | '-' :: r => (true, r)
      | '+' :: r => (false, r)
      | r => (false, r)
    match pySplitP (fun c => c = 'e' || c = 'E') rest with
    | [m] => (decimalCore m).map (fun nd => build neg nd 0)
    | [m, e] =>
      match decimalCore m, parseExp e with
      | some nd, some ex => some (build neg nd ex)
      | _, _ => none
    | _ => none
  match core (pyStrip s.data) with
  | some q => .ok q
  | none => .error (.valueError ("could not convert string to float: " ++ s))

/-- `Series.astype(int)` on an object column of raw cells: every cell must
be a string accepted by `int()`; a NaN cell raises `TypeError` as CPython
does for `int(None)`. -/
def astypeInt : List Cell → Except PyError (List Value)
  | [] => .ok []
  | none :: _ =>
    .error (.typeError "int() argument must be a string, a bytes-like object or a number, not NoneType")
  | some s :: rest => do
    let i ← pyInt s
    let r ← astypeInt rest
    pure (.int i :: r)

/-- `Series.astype(float)` on an object column of raw cells: NaN cells
stay NaN; string cells must be accepted by `float()`. -/
def astypeFloat : List Cell → Except PyError (List Value)
  | [] => .ok []
  | none :: rest => do
    let r ← astypeFloat rest
    pure (.na :: r)
  | some s :: rest => do
    let q ← pyFloat s
    let r ← astypeFloat rest
    pure (.flt q :: r)

/-- A raw cell as a `Value`: NaN padding stays missing, strings stay
strings. -/
def strVal : Cell → Value
  | some s => .str s
  | none => .na

/-- Column access `df[c]` on the raw frame: `KeyError` if `c` is not a
column name, otherwise the column's cells (NaN for rows shorter than the
column position, matching the padding of
`pd.DataFrame(data, columns=header)`). -/
def RawFrame.col (df : RawFrame) (c : String) : Except PyError (List Cell) :=
  match df.columns.findIdx? (· == c) with
  | none => .error (.keyError c)
  | some i => .ok (df.rows.map (fun r => r[i]?))

/-- Width of the widest data row; `pd.DataFrame(data, columns=header)`
pads narrower rows to this width and raises when it differs from the
header length. -/
def maxWidth (data : List (List String)) : Nat :=
  data.foldr (fun r acc => max r.length acc) 0

/-! ## Calendar derivations (`pd.to_datetime`, `.dt.year/month`,
`.dt.isocalendar().week`, `.dt.day_name()`) on the proleptic Gregorian
calendar. -/

/-- Gregorian leap-year test. -/
def isLeap (y : Nat) : Bool :=
  y % 4 == 0 && (y % 100 != 0 || y % 400 == 0)

/-- Days in month `m` (1–12) of year `y`. -/
def daysInMonth (y : Nat) (m : Nat) : Nat :=
  if m = 2 then (if isLeap y then 29 else 28)
  else if m = 4 ∨ m = 6 ∨ m = 9 ∨ m = 11 then 30
  else 31

/-- Days in the months strictly before month `m` of year `y`. -/
def daysBeforeMonth (y : Nat) (m : Nat) : Nat :=
  (List.range (m - 1)).foldl (fun acc k => acc + daysInMonth y (k + 1)) 0

/-- Ordinal day of the year (1-based). -/
def dayOfYear (y m d : Nat) : Nat :=
  daysBeforeMonth y m + d

/-- Days in all years strictly before year `y` (proleptic Gregorian,
year 1 onward). -/
def daysBeforeYear (y : Nat) : Nat :=
  365 * (y - 1) + ((y - 1) / 4 + (y - 1) / 400 - (y - 1) / 100)

/-- Rata die day number: 0001-01-01 is day 1. -/
def rataDie (y m d : Nat) : Nat :=
  daysBeforeYear y + dayOfYear y m d

/-- Day of week with Monday = 0 … Sunday = 6 (0001-01-01 is a Monday). -/
def weekdayMon0 (y m d : Nat) : Nat :=
  (rataDie y m d + 6) % 7

/-- English weekday names as produced by `Series.dt.day_name()`. -/
def weekdayName (w : Nat) : String :=
  ["Monday", "Tuesday", "Wednesday", "Thursday", "Friday", "Saturday", "Sunday"].getD w ""

/-- Number of ISO 8601 weeks in year `y` (52 or 53). -/
def isoWeeksInYear (y : Nat) : Nat :=
  let jan1 := weekdayMon0 y 1 1
  if jan1 == 3 || (isLeap y && jan1 == 2) then 53 else 52

/-- ISO 8601 week number of a date, as `Series.dt.isocalendar().week`. -/
def isoWeek (y m d : Nat) : Nat :=
  let doy := dayOfYear y m d
  let dow := weekdayMon0 y m d + 1
  let w := (doy + 10 - dow) / 7
  if w = 0 then isoWeeksInYear (y - 1)
  else if w = 53 ∧ isoWeeksInYear y ≠ 53 then 1
  else w

/-- `pd.to_datetime` on a report-date string: the `YYYY-MM-DD` form used
by this pipeline, validated as a real calendar date within the pandas
`Timestamp` range (whole years 1678–2261; out-of-range dates raise).
Other textual date formats accepted by pandas are not modelled. -/
def parseDate (s : String) : Except PyError (Nat × Nat × Nat) :=
  let err : Except PyError (Nat × Nat × Nat) :=
    .error (.valueError ("Unknown datetime string format: " ++ s))
  match pySplit '-' s.data with
  | [ys, ms, ds] =>
    match digitsToNat ys, digitsToNat ms, digitsToNat ds with
    | some y, some m, some d =>
      if 1678 ≤ y ∧ y ≤ 2261 ∧ 1 ≤ m ∧ m ≤ 12 ∧ 1 ≤ d ∧ d ≤ daysInMonth y m then
        .ok (y, m, d)
      else err
    | _, _, _ => err
  | _ => err

/-! ## The Report Normalizer (`parse_report`) -/

/-- The canonical 17-column output order imposed by `parse_report`
(lines 131–136 of the source). -/
def canonical_header : List String :=
  ["Date", "Year", "Month", "Week", "Weekday",
   "App Name", "SKU", "Country", "Region", "Device",
   "Install Type", "Units", "Proceeds", "Customer Price",
   "Currency", "Product Type", "Promo Code"]

/-- `report_data.strip().split('\n')`: the physical lines of the raw
report. -/
def reportLines (txt : String) : List (List Char) :=
  pySplit '\n' (pyStrip txt.data)

/-- The header line split on tabs: the report's column names. -/
def reportHeader (txt : String) : List String :=
  (pySplit '\t' ((reportLines txt).headD [])).map (fun cs => String.mk cs)

/-- The data rows (`lines[1:]`), each split on tabs. -/
def reportDataRows (txt : String) : List (List String) :=
  (reportLines txt).tail.map (fun l => (pySplit '\t' l).map (fun cs => String.mk cs))

/-- Position of column `c` in the report header, if present. -/
def colIdx (txt : String) (c : String) : Option Nat :=
  (reportHeader txt).findIdx? (· == c)

/-- Is a raw product-type cell one of the download-type codes
`{"1", "1F", "7"}`?  (`Series.isin`: a NaN cell is not in the list.) -/
def isDownloadCode : Cell → Bool
  | some s => s == "1" || s == "1F" || s == "7"
  | none => false

/-- The rows surviving the download filter
`df[df['Product Type Identifier'].isin(['1', '1F', '7'])]`; empty when
the report has no `Product Type Identifier` column (that case raises
before the filter is reached). -/
def downloadRows (txt : String) : List (List String) :=
  match colIdx txt "Product Type Identifier" with
  | some i => (reportDataRows txt).filter (fun r => isDownloadCode r[i]?)
  | none => []

/-- The filtered raw frame `downloads`. -/
def downloadsOf (txt : String) : RawFrame :=
  ⟨reportHeader txt, downloadRows txt⟩

/-- The Install Type column (source lines 105–112): the `Installation
Type` column if that name is in the header, else the `Install Event`
column if that name is, else the constant sentinel `N/A`.  Never raises. -/
def installVals (txt : String) : List Value :=
  match colIdx txt "Installation Type" with
  | some i => (downloadRows txt).map (fun r => strVal r[i]?)
  | none =>
    match colIdx txt "Install Event" with
    | some i => (downloadRows txt).map (fun r => strVal r[i]?)
    | none => (downloadRows txt).map (fun _ => .str "N/A")

/-- The fixed country-code → region table (source lines 121–127). -/
def region_map : List (String × String) :=
  [("JP", "Asia"), ("CN", "Asia"), ("KR", "Asia"), ("TW", "Asia"), ("HK", "Asia"),
   ("US", "North America"), ("CA", "North America"), ("MX", "North America"),
   ("GB", "Europe"), ("DE", "Europe"), ("FR", "Europe"), ("IT", "Europe"), ("ES", "Europe"),
   ("BR", "South America"), ("AR", "South America"),
   ("AU", "Oceania"), ("NZ", "Oceania")]

/-- `result['Country'].map(region_map).fillna('Other')` applied to one
country cell: table lookup, with every unmapped value (including a NaN
country cell) resolving to `Other`. -/
def regionOf (v : Value) : String :=
  match v with
  | .str c =>
    match region_map.find? (fun p => p.1 == c) with
    | some p => p.2
    | none => "Other"
  | _ => "Other"

/-- One canonical output row (17 cells in `canonical_header` order) for
the `i`-th surviving download row, given the extracted source columns and
the calendar components of the report date. -/
def mkRow (date : String) (y mo d : Nat)
    (titleC skuC countryC deviceC priceC currC ptypeC promoC : List Cell)
    (installC unitsC procC : List Value) (i : Nat) : List Value :=
  [Value.str date, Value.int (y : Int), Value.int (mo : Int),
   Value.int ((isoWeek y mo d : Nat) : Int),
   Value.str (weekdayName (weekdayMon0 y mo d)),
   strVal (titleC.getD i none), strVal (skuC.getD i none),
   strVal (countryC.getD i none),
   Value.str (regionOf (strVal (countryC.getD i none))),
   strVal (deviceC.getD i none),
   installC.getD i Value.na,
   unitsC.getD i Value.na,
   procC.getD i Value.na,
   strVal (priceC.getD i none), strVal (currC.getD i none),
   strVal (ptypeC.getD i none), strVal (promoC.getD i none)]

/-- The Report Normalizer `parse_report(report_data, report_date)`.

`report_data = None` or `""` (falsy) yields an empty frame.  Otherwise
the text is split into a header and tab-separated data rows;
`pd.DataFrame(data, columns=header)` pads ragged rows with NaN but raises
when the widest row's width differs from the header length.  Rows are
filtered to download product types; if none survive, an empty frame is
returned.  Each named source column is then extracted (raising `KeyError`
at the first absent required column, in the evaluation order of the
source's dict literal), `Units` is cast to int and `Developer Proceeds`
to float, the Install Type column is resolved by header-name precedence,
the calendar fields are derived from the report date, and the canonical
17-column frame is produced. -/
def parse_report (report_data : Option String) (report_date : String) :
    Except PyError DataFrame :=
  match report_data with
  | none => .ok ⟨[], []⟩
  | some txt =>
    if txt = "" then .ok ⟨[], []⟩
    else
      if reportDataRows txt ≠ [] ∧ maxWidth (reportDataRows txt) ≠ (reportHeader txt).length then
        .error (.valueError "columns passed, passed data had a different width")
      else
        match colIdx txt "Product Type Identifier" with
        | none => .error (.keyError "Product Type Identifier")
        | some _ =>
          if downloadRows txt = [] then .ok ⟨[], []⟩
          else do
            let titleC ← (downloadsOf txt).col "Title"
            let skuC ← (downloadsOf txt).col "SKU"
            let countryC ← (downloadsOf txt).col "Country Code"
            let deviceC ← (downloadsOf txt).col "Device"
            let unitsRaw ← (downloadsOf txt).col "Units"
            let unitsC ← astypeInt unitsRaw
            let procRaw ← (downloadsOf txt).col "Developer Proceeds"
            let procC ← astypeFloat procRaw
            let priceC ← (downloadsOf txt).col "Customer Price"
            let currC ← (downloadsOf txt).col "Customer Currency"
            let ptypeC ← (downloadsOf txt).col "Product Type Identifier"
            let promoC ← (downloadsOf txt).col "Promo Code"
            match parseDate report_date with
            | .error e => .error e
            | .ok (y, mo, d) =>
              .ok ⟨canonical_header,
                   (List.range (downloadRows txt).length).map
                     (mkRow report_date y mo d titleC skuC countryC deviceC
                        priceC currC ptypeC promoC (installVals txt) unitsC procC)⟩

/-! ## The Report Fetcher (`get_sales_report`) -/

/-- An HTTP response as seen by `get_sales_report`: status code, raw
(compressed) body bytes, and the body decoded as text. -/
structure HttpResponse where
  status : Nat
  content : String
  text : String
deriving Repr, DecidableEq

/-- The outcome classification of `get_sales_report` (source lines
58–67), with the network call modelled by passing the received response
and gzip decompression by the abstract `gunzip`.  The first component is
the Python return value (`Some` raw report on 200, `None` otherwise); the
second is the diagnostic output printed for the non-200 outcomes. -/
def get_sales_report (gunzip : String → String) (resp : HttpResponse) :
    Option String × List String :=
  if resp.status = 200 then
    (some (gunzip resp.content), [])
  else if resp.status = 404 then
    (none, ["レポートが見つかりません（データがない可能性があります）"])
  else
    (none, ["エラー: " ++ toString resp.status, resp.text])

/-! ## The Sink Writer (`save_to_sheets`) -/

/-- The header literal of `save_to_sheets` (source lines 174–179). -/
def expected_header : List String :=
  ["Date", "Year", "Month", "Week", "Weekday",
   "App Name", "SKU", "Country", "Region", "Device",
   "Install Type", "Units", "Proceeds", "Customer Price",
   "Currency", "Product Type", "Promo Code"]

/-- Serialization of a cell on its way into the spreadsheet
(`df.values.tolist()` followed by the store's JSON encoding, which
`get_all_values` reads back as strings). -/
def renderValue : Value → String
  | .str s => s
  | .int i => toString i
  | .flt q => toString q
  | .na => ""

/-- The Sink Writer `save_to_sheets(df)`, with the spreadsheet modelled
as the list of rows `get_all_values` would return.  An empty frame
returns without touching the sheet.  Otherwise the header is inserted at
the top unless the sheet already has a first row whose first cell is the
literal `Date` (source line 182), and the frame's rows are appended at
the bottom in order. -/
def save_to_sheets (df : DataFrame) (sheet : List (List String)) :
    List (List String) :=
  if df.rows.isEmpty then sheet
  else
    let withHeader :=
      match sheet with
      | [] => expected_header :: sheet
      | row0 :: _ =>
        if row0 = [] ∨ row0.headD "" ≠ "Date" then expected_header :: sheet
        else sheet
    withHeader ++ df.rows.map (fun r => r.map renderValue)

/-! ## Concrete reports used to instantiate the theorems -/

/-- The rows of a `parse_report` result, the empty list on error: the
observable record sequence of a normalizer run. -/
def parsedRows (rd : Option String) (date : String) : List (List Value) :=
  match parse_report rd date with
  | .ok df => df.rows
  | .error _ => []

/-- The raw-report scenario of the specification: one download row with
Country `JP`, Units `5`, Installation Type `Free`. -/
def specReport : String :=
  "Product Type Identifier\tTitle\tSKU\tCountry Code\tDevice\tUnits\tDeveloper Proceeds\tCustomer Price\tCustomer Currency\tPromo Code\tInstallation Type\n1\tMyApp\tSKU1\tJP\tiPhone\t5\t0.00\t0\tJPY\t\tFree"

/-- A report whose single download row has Country `CN`: a country code
that is in the source's region table but not among the five codes the
claim lists. -/
def cnReport : String :=
  "Product Type Identifier\tTitle\tSKU\tCountry Code\tDevice\tUnits\tDeveloper Proceeds\tCustomer Price\tCustomer Currency\tPromo Code\n1\tMyApp\tSKU1\tCN\tiPhone\t5\t0.00\t0\tJPY\tP1"

/-- A report whose second data row is one field short: the required
`Promo Code` column (the last header column) has no value in that row. -/
def shortRowReport : String :=
  "Product Type Identifier\tTitle\tSKU\tCountry Code\tDevice\tUnits\tDeveloper Proceeds\tCustomer Price\tCustomer Currency\tInstallation Type\tPromo Code\n1\tMyApp\tSKU1\tJP\tiPhone\t5\t0.00\t0\tJPY\tFree\tXYZ\n1\tYourApp\tSKU2\tDE\tiPad\t3\t0.00\t0\tUSD\tFree"

/-- A report whose header lacks the required `Title` column. -/
def noTitleReport : String :=
  "Product Type Identifier\tSKU\tCountry Code\tDevice\tUnits\tDeveloper Proceeds\tCustomer Price\tCustomer Currency\tPromo Code\n1\tSKU1\tJP\tiPhone\t5\t0.00\t0\tJPY\tP1"

/-- A report with one row of product type `3` (not a download) and one
of product type `1`. -/
def mixedTypesReport : String :=
  "Product Type Identifier\tTitle\tSKU\tCountry Code\tDevice\tUnits\tDeveloper Proceeds\tCustomer Price\tCustomer Currency\tPromo Code\n3\tMyApp\tSKU1\tJP\tiPhone\t5\t0.00\t0\tJPY\tP1\n1\tMyApp\tSKU1\tJP\tiPhone\t5\t0.00\t0\tJPY\tP2"

/-- A report carrying neither an `Installation Type` nor an
`Install Event` column. -/
def noInstallReport : String :=
  "Product Type Identifier\tTitle\tSKU\tCountry Code\tDevice\tUnits\tDeveloper Proceeds\tCustomer Price\tCustomer Currency\tPromo Code\n1\tMyApp\tSKU1\tJP\tiPhone\t5\t0.00\t0\tJPY\tP1"

/-! ## Inversion helpers -/

/-- Success of a bind in the `Except` monad splits into success of both
stages. -/
theorem except_bind_ok {α β : Type} (e : Except PyError α) (f : α → Except PyError β) (b : β) :
    e >>= f = Except.ok b ↔ ∃ a, e = Except.ok a ∧ f a = Except.ok b := by
  cases e <;> simp [Bind.bind, Except.bind]

/-- `getD` commutes with `map` at indices inside the list. -/
theorem getD_map_lt {α β : Type} (f : α → β) (l : List α) (i : Nat) (hi : i < l.length)
    (d : β) (d0 : α) : (l.map f).getD i d = f (l.getD i d0) := by
  rw [List.getD_eq_getElem?_getD, List.getD_eq_getElem?_getD, List.getElem?_map,
    List.getElem?_eq_getElem hi]
  rfl

/-- Column extraction on the filtered frame succeeds exactly when the
name occurs in the report header, and then yields that column's cells. -/
theorem col_ok_iff (txt c : String) (l : List Cell) :
    (downloadsOf txt).col c = Except.ok l ↔
      ∃ j, colIdx txt c = some j ∧ l = (downloadRows txt).map (fun r => r[j]?) := by
  unfold RawFrame.col downloadsOf colIdx
  cases hj : (reportHeader txt).findIdx? (· == c) with
  | none => simp [hj]
  | some j => simp [hj, eq_comm]

/-- Column extraction on the filtered frame raises `KeyError` when the
name does not occur in the report header. -/
theorem col_error_of_absent (txt c : String) (h : colIdx txt c = none) :
    (downloadsOf txt).col c = Except.error (.keyError c) := by
  unfold colIdx at h
  unfold RawFrame.col downloadsOf
  rw [h]

/-- Inversion of a successful `parse_report` run: either the result is
the empty frame (falsy input or no download rows), or every source
column was extracted successfully, the report date parsed, and the
result lists one canonical 17-cell row per surviving download row. -/
theorem parse_ok_cases (txt date : String) (df : DataFrame)
    (h : parse_report (some txt) date = Except.ok df) :
    df = ⟨[], []⟩ ∨
    ∃ y mo d : Nat, ∃ titleC skuC countryC deviceC unitsRaw procRaw priceC currC ptypeC promoC : List Cell,
    ∃ unitsC procC : List Value,
      parseDate date = Except.ok (y, mo, d) ∧
      (downloadsOf txt).col "Title" = Except.ok titleC ∧
      (downloadsOf txt).col "SKU" = Except.ok skuC ∧
      (downloadsOf txt).col "Country Code" = Except.ok countryC ∧
      (downloadsOf txt).col "Device" = Except.ok deviceC ∧
      (downloadsOf txt).col "Units" = Except.ok unitsRaw ∧
      astypeInt unitsRaw = Except.ok unitsC ∧
      (downloadsOf txt).col "Developer Proceeds" = Except.ok procRaw ∧
      astypeFloat procRaw = Except.ok procC ∧
      (downloadsOf txt).col "Customer Price" = Except.ok priceC ∧
      (downloadsOf txt).col "Customer Currency" = Except.ok currC ∧
      (downloadsOf txt).col "Product Type Identifier" = Except.ok ptypeC ∧
      (downloadsOf txt).col "Promo Code" = Except.ok promoC ∧
      df = ⟨canonical_header,
            (List.range (downloadRows txt).length).map
              (mkRow date y mo d titleC skuC countryC deviceC priceC currC ptypeC promoC
                 (installVals txt) unitsC procC)⟩ := by
  simp only [parse_report] at h
  split at h
  · exact Or.inl (Except.ok.inj h).symm
  · split at h
    · exact absurd h (by simp)
    · split at h
      · exact absurd h (by simp)
      · split at h
        · exact Or.inl (Except.ok.inj h).symm
        · simp only [except_bind_ok] at h
          obtain ⟨titleC, hTitle, h⟩ := h
          obtain ⟨skuC, hSku, h⟩ := h
          obtain ⟨countryC, hCountry, h⟩ := h
          obtain ⟨deviceC, hDevice, h⟩ := h
          obtain ⟨unitsRaw, hUnitsRaw, h⟩ := h
          obtain ⟨unitsC, hUnits, h⟩ := h
          obtain ⟨procRaw, hProcRaw, h⟩ := h
          obtain ⟨procC, hProc, h⟩ := h
          obtain ⟨priceC, hPrice, h⟩ := h
          obtain ⟨currC, hCurr, h⟩ := h
          obtain ⟨ptypeC, hPtype, h⟩ := h
          obtain ⟨promoC, hPromo, h⟩ := h
          split at h
          · exact absurd h (by simp)
          · rename_i y mo d hDate
            exact Or.inr ⟨y, mo, d, titleC, skuC, countryC, deviceC, unitsRaw, procRaw,
              priceC, currC, ptypeC, promoC, unitsC, procC, hDate, hTitle, hSku, hCountry,
              hDevice, hUnitsRaw, hUnits, hProcRaw, hProc, hPrice, hCurr, hPtype, hPromo,
              (Except.ok.inj h).symm⟩

/-- A bind on an error propagates the error unchanged. -/
theorem except_bind_error {α β : Type} (e : PyError) (f : α → Except PyError β) :
    (Except.error e : Except PyError α) >>= f = Except.error e := rfl

/-! ## Claim C1 — fetch outcome classification -/

/-- Claim C1, counterexample: on a response with status 500 and body
`boom`, `get_sales_report` returns `None` — the very same return value as
for a 404 response — rather than a `FetchError` value carrying the status
and body.  The two outcomes are not distinguishable by the function's
return value. -/
theorem fetch_error_counterexample :
    (get_sales_report id ⟨500, "", "boom"⟩).1 = none ∧
    (get_sales_report id ⟨500, "", "boom"⟩).1 = (get_sales_report id ⟨404, "", ""⟩).1 := by
  decide

/-- Claim C1, amended: for every response whose status is neither 200 nor
404, `get_sales_report` prints the status code and the response body for
diagnostics and returns `None` — the same return value as the 404
no-data outcome, so the two are distinguishable only in the log. -/
theorem fetch_error_logged_not_returned (gunzip : String → String) (resp : HttpResponse)
    (h200 : resp.status ≠ 200) (h404 : resp.status ≠ 404) :
    get_sales_report gunzip resp = (none, ["エラー: " ++ toString resp.status, resp.text]) := by
  unfold get_sales_report
  rw [if_neg h200, if_neg h404]

/-- Witness for the amended C1 at a concrete 500 response. -/
theorem fetch_error_logged_not_returned_witness :
    get_sales_report id ⟨500, "", "boom"⟩ = (none, ["エラー: " ++ toString (500 : Nat), "boom"]) :=
  fetch_error_logged_not_returned id ⟨500, "", "boom"⟩ (by decide) (by decide)

/-! ## Claim C8 — empty input is a no-op -/

/-- Claim C8: a null or empty raw report normalizes to the empty record
sequence with no error, and the Sink Writer on an empty frame returns the
sheet untouched — no header inserted, no rows appended. -/
theorem empty_input_noop (date : String) :
    parse_report none date = Except.ok ⟨[], []⟩ ∧
    parse_report (some "") date = Except.ok ⟨[], []⟩ ∧
    ∀ (df : DataFrame) (sheet : List (List String)),
      df.rows = [] → save_to_sheets df sheet = sheet := by
  refine ⟨rfl, by simp [parse_report], ?_⟩
  intro df sheet hdf
  simp [save_to_sheets, hdf]

/-- Witness for C8: the Sink Writer leaves a concrete sheet unchanged on
an empty frame. -/
theorem empty_input_noop_witness :
    save_to_sheets ⟨[], []⟩ [["x"]] = [["x"]] :=
  (empty_input_noop "2024-03-01").2.2 ⟨[], []⟩ [["x"]] rfl

/-! ## Claim C7 — header insertion is idempotent -/

/-- Claim C7: when the sheet's first row already starts with the literal
header token `Date`, a non-empty write inserts no second header: the
records are appended directly after the existing content. -/
theorem header_not_reinserted (df : DataFrame) (row0 : List String) (rest : List (List String))
    (hne : df.rows ≠ []) (h0 : row0 ≠ []) (hd : row0.headD "" = "Date") :
    save_to_sheets df (row0 :: rest) =
      (row0 :: rest) ++ df.rows.map (fun r => r.map renderValue) := by
  unfold save_to_sheets
  rw [if_neg (by simpa using hne)]
  simp only []
  rw [if_neg (by push_neg; exact ⟨h0, hd⟩)]

set_option maxRecDepth 8000 in
/-- Witness for C7: writing the specification scenario's record to a
sheet that already has the canonical header appends the record without a
second header row. -/
theorem header_not_reinserted_witness :
    save_to_sheets ⟨canonical_header, parsedRows (some specReport) "2024-03-01"⟩
        (expected_header :: []) =
      (expected_header :: []) ++
        (parsedRows (some specReport) "2024-03-01").map (fun r => r.map renderValue) :=
  header_not_reinserted _ expected_header [] (by decide) (by decide) (by decide)

/-! ## Claim C10 — header insertion on an empty or headless sheet -/

/-- Claim C10: a non-empty write to a sheet that is completely empty, or
whose first row has no cells, inserts the canonical header as the first
row and then appends the records. -/
theorem header_inserted_when_sheet_headless (df : DataFrame) (sheet : List (List String))
    (hne : df.rows ≠ []) (h : sheet = [] ∨ ∃ rest, sheet = [] :: rest) :
    save_to_sheets df sheet =
      (expected_header :: sheet) ++ df.rows.map (fun r => r.map renderValue) := by
  unfold save_to_sheets
  rw [if_neg (by simpa using hne)]
  rcases h with rfl | ⟨rest, rfl⟩
  · rfl
  · simp

set_option maxRecDepth 8000 in
/-- Witness for C10: writing the specification scenario's record to an
empty sheet yields the canonical header followed by the record. -/
theorem header_inserted_when_sheet_headless_witness :
    save_to_sheets ⟨canonical_header, parsedRows (some specReport) "2024-03-01"⟩ [] =
      (expected_header :: []) ++
        (parsedRows (some specReport) "2024-03-01").map (fun r => r.map renderValue) :=
  header_inserted_when_sheet_headless _ [] (by decide) (Or.inl rfl)

/-! ## Claim C2 — region derivation -/

set_option maxRecDepth 8000 in
/-- Claim C2, counterexample: the report whose single record has Country
`CN` — not one of the five codes JP/US/GB/BR/AU — is normalized with
Region `Asia`, not `Other`: the source's lookup table has seventeen
entries, not five. -/
theorem region_counterexample :
    ((parsedRows (some cnReport) "2024-03-01").getD 0 []).getD 7 Value.na = Value.str "CN" ∧
    ((parsedRows (some cnReport) "2024-03-01").getD 0 []).getD 8 Value.na = Value.str "Asia" ∧
    "CN" ∉ (["JP", "US", "GB", "BR", "AU"] : List String) ∧
    Value.str "Asia" ≠ Value.str "Other" := by
  refine ⟨by decide, by decide, by decide, by decide⟩

/-- Claim C2, amended: Region is a pure function of Country through the
source's fixed seventeen-entry lookup table; the five codes the claim
names do map as stated, and every country code outside the seventeen
table entries maps to `Other`. -/
theorem region_pure_function_of_country (txt date : String) (df : DataFrame)
    (h : parse_report (some txt) date = Except.ok df) :
    (∀ r ∈ df.rows, r.getD 8 Value.na = Value.str (regionOf (r.getD 7 Value.na))) ∧
    regionOf (Value.str "JP") = "Asia" ∧
    regionOf (Value.str "US") = "North America" ∧
    regionOf (Value.str "GB") = "Europe" ∧
    regionOf (Value.str "BR") = "South America" ∧
    regionOf (Value.str "AU") = "Oceania" ∧
    ∀ c : String, c ∉ region_map.map Prod.fst → regionOf (Value.str c) = "Other" := by
  refine ⟨?_, rfl, rfl, rfl, rfl, rfl, ?_⟩
  · rcases parse_ok_cases txt date df h with hdf | ⟨y, mo, d, titleC, skuC, countryC, deviceC,
      unitsRaw, procRaw, priceC, currC, ptypeC, promoC, unitsC, procC, hDate, hTitle, hSku,
      hCountry, hDevice, hUnitsRaw, hUnits, hProcRaw, hProc, hPrice, hCurr, hPtype, hPromo,
      hdf⟩ <;> subst hdf
    · intro r hr
      simp at hr
    · intro r hr
      simp only [List.mem_map, List.mem_range] at hr
      obtain ⟨i, hi, rfl⟩ := hr
      rfl
  · intro c hc
    have hf : region_map.find? (fun p => p.1 == c) = none := by
      cases hf2 : region_map.find? (fun p => p.1 == c) with
      | none => rfl
      | some p =>
        exfalso
        have hmem := List.mem_of_find?_eq_some hf2
        have hp : p.1 = c := by simpa using List.find?_some hf2
        exact hc (hp ▸ List.mem_map.mpr ⟨p, hmem, rfl⟩)
    have hred : regionOf (Value.str c) =
        match region_map.find? (fun p => p.1 == c) with
        | some p => p.2
        | none => "Other" := rfl
    rw [hred, hf]

set_option maxRecDepth 8000 in
/-- Witness for the amended C2: in the concrete `CN` report, the stored
Region field is exactly the table lookup of the stored Country field. -/
theorem region_pure_function_of_country_witness :
    ((parsedRows (some cnReport) "2024-03-01").getD 0 []).getD 8 Value.na =
      Value.str (regionOf (((parsedRows (some cnReport) "2024-03-01").getD 0 []).getD 7 Value.na)) :=
  (region_pure_function_of_country cnReport "2024-03-01"
      ⟨canonical_header, parsedRows (some cnReport) "2024-03-01"⟩ rfl).1
    _ (by decide)

/-! ## Claim C4 — the canonical 17-field schema -/

/-- Claim C4: every non-empty normalizer output has exactly the canonical
columns in their fixed order, every record (and every record as
serialized for the store) has exactly 17 fields, and the header row the
Sink Writer inserts consists of exactly those 17 literal tokens in that
order. -/
theorem canonical_17_schema (rd : Option String) (date : String) (df : DataFrame)
    (h : parse_report rd date = Except.ok df) (hne : df.rows ≠ []) :
    df.columns = canonical_header ∧
    (∀ r ∈ df.rows, r.length = 17) ∧
    (∀ r ∈ df.rows.map (fun row => row.map renderValue), r.length = 17) ∧
    expected_header = canonical_header ∧
    canonical_header = ["Date", "Year", "Month", "Week", "Weekday", "App Name", "SKU",
      "Country", "Region", "Device", "Install Type", "Units", "Proceeds", "Customer Price",
      "Currency", "Product Type", "Promo Code"] := by
  match rd with
  | none =>
    have h2 : (Except.ok (⟨[], []⟩ : DataFrame) : Except PyError DataFrame) = Except.ok df := h
    have hdf : df = ⟨[], []⟩ := (Except.ok.inj h2).symm
    exact absurd (show df.rows = [] by rw [hdf]) hne
  | some txt =>
    rcases parse_ok_cases txt date df h with hdf | ⟨y, mo, d, titleC, skuC, countryC, deviceC,
      unitsRaw, procRaw, priceC, currC, ptypeC, promoC, unitsC, procC, hDate, hTitle, hSku,
      hCountry, hDevice, hUnitsRaw, hUnits, hProcRaw, hProc, hPrice, hCurr, hPtype, hPromo,
      hdf⟩
    · exact absurd (show df.rows = [] by rw [hdf]) hne
    · subst hdf
      have hlen : ∀ r ∈ (⟨canonical_header,
          (List.range (downloadRows txt).length).map
            (mkRow date y mo d titleC skuC countryC deviceC priceC currC ptypeC promoC
               (installVals txt) unitsC procC)⟩ : DataFrame).rows, r.length = 17 := by
        intro r hr
        simp only [List.mem_map, List.mem_range] at hr
        obtain ⟨i, hi, rfl⟩ := hr
        rfl
      refine ⟨rfl, hlen, ?_, rfl, rfl⟩
      intro r hr
      simp only [List.mem_map, List.mem_range] at hr
      obtain ⟨row, ⟨i, hi, hrow⟩, rfl⟩ := hr
      subst hrow
      rw [List.length_map]
      rfl

set_option maxRecDepth 8000 in
/-- Witness for C4 on the specification scenario: its single record has
17 fields. -/
theorem canonical_17_schema_witness :
    ((parsedRows (some specReport) "2024-03-01").getD 0 []).length = 17 :=
  (canonical_17_schema (some specReport) "2024-03-01"
      ⟨canonical_header, parsedRows (some specReport) "2024-03-01"⟩ rfl (by decide)).2.1
    _ (by decide)

/-! ## Claim C5 — product-type filtering -/

/-- Claim C5: every record output by the normalizer has a Product Type
field among the download codes 1, 1F, 7; rows with any other
product-type identifier contribute no record. -/
theorem product_type_in_download_set (txt date : String) (df : DataFrame)
    (h : parse_report (some txt) date = Except.ok df) :
    ∀ r ∈ df.rows,
      r.getD 15 Value.na ∈ ([Value.str "1", Value.str "1F", Value.str "7"] : List Value) := by
  rcases parse_ok_cases txt date df h with hdf | ⟨y, mo, d, titleC, skuC, countryC, deviceC,
    unitsRaw, procRaw, priceC, currC, ptypeC, promoC, unitsC, procC, hDate, hTitle, hSku,
    hCountry, hDevice, hUnitsRaw, hUnits, hProcRaw, hProc, hPrice, hCurr, hPtype, hPromo,
    hdf⟩ <;> subst hdf
  · intro r hr
    simp at hr
  · intro r hr
    simp only [List.mem_map, List.mem_range] at hr
    obtain ⟨i, hi, rfl⟩ := hr
    obtain ⟨j, hj, hcol⟩ := (col_ok_iff txt "Product Type Identifier" ptypeC).mp hPtype
    show strVal (ptypeC.getD i none) ∈ _
    subst hcol
    have hdr : downloadRows txt = (reportDataRows txt).filter (fun r => isDownloadCode r[j]?) := by
      unfold downloadRows
      rw [hj]
    rw [getD_map_lt _ _ i hi none []]
    have hmem : (downloadRows txt).getD i [] ∈ downloadRows txt := by
      rw [List.getD_eq_getElem?_getD, List.getElem?_eq_getElem hi]
      exact List.getElem_mem hi
    have hmem2 : (downloadRows txt).getD i [] ∈
        (reportDataRows txt).filter (fun r => isDownloadCode r[j]?) := by
      rw [← hdr]
      exact hmem
    have hcode : isDownloadCode ((downloadRows txt).getD i [])[j]? = true :=
      (List.mem_filter.mp hmem2).2
    cases hc : ((downloadRows txt).getD i [])[j]? with
    | none =>
      rw [hc] at hcode
      exact absurd hcode (by decide)
    | some s =>
      rw [hc] at hcode
      have hs : s = "1" ∨ s = "1F" ∨ s = "7" := by
        simpa [isDownloadCode, or_assoc] using hcode
      rcases hs with rfl | rfl | rfl <;> simp [strVal]

set_option maxRecDepth 8000 in
/-- Witness for C5: the mixed report with a product type `3` row and a
product type `1` row yields exactly one record, whose Product Type is a
download code. -/
theorem product_type_in_download_set_witness :
    ((parsedRows (some mixedTypesReport) "2024-03-01").getD 0 []).getD 15 Value.na ∈
      ([Value.str "1", Value.str "1F", Value.str "7"] : List Value) ∧
    (parsedRows (some mixedTypesReport) "2024-03-01").length = 1 :=
  ⟨(product_type_in_download_set mixedTypesReport "2024-03-01"
      ⟨canonical_header, parsedRows (some mixedTypesReport) "2024-03-01"⟩ rfl)
      _ (by decide),
   by decide⟩

/-! ## Claim C6 — Install Type precedence -/

/-- Claim C6: each record's Install Type is the `Installation Type`
column's value when that column exists in the report header, else the
`Install Event` column's value when that one exists, else the literal
`N/A` — decided purely by header membership, with no error when either
or both columns are absent. -/
theorem install_type_precedence (txt date : String) (df : DataFrame)
    (h : parse_report (some txt) date = Except.ok df) :
    ∀ i, i < df.rows.length →
      (df.rows.getD i []).getD 10 Value.na =
        (match colIdx txt "Installation Type" with
         | some j => strVal (((downloadRows txt).getD i [])[j]?)
         | none =>
           match colIdx txt "Install Event" with
           | some j => strVal (((downloadRows txt).getD i [])[j]?)
           | none => Value.str "N/A") := by
  rcases parse_ok_cases txt date df h with hdf | ⟨y, mo, d, titleC, skuC, countryC, deviceC,
    unitsRaw, procRaw, priceC, currC, ptypeC, promoC, unitsC, procC, hDate, hTitle, hSku,
    hCountry, hDevice, hUnitsRaw, hUnits, hProcRaw, hProc, hPrice, hCurr, hPtype, hPromo,
    hdf⟩ <;> subst hdf
  · intro i hi
    simp at hi
  · intro i hi
    dsimp only at hi ⊢
    have hi' : i < (downloadRows txt).length := by
      simpa using hi
    rw [getD_map_lt _ _ i (by simpa using hi') ([] : List Value) 0]
    have hidx : (List.range (downloadRows txt).length).getD i 0 = i := by
      rw [List.getD_eq_getElem?_getD, List.getElem?_range hi']
      rfl
    rw [hidx]
    show (installVals txt).getD i Value.na = _
    unfold installVals
    cases h1 : colIdx txt "Installation Type" with
    | some j =>
      simp only [h1]
      rw [getD_map_lt _ _ i hi' Value.na []]
    | none =>
      simp only [h1]
      cases h2 : colIdx txt "Install Event" with
      | some j =>
        simp only [h2]
        rw [getD_map_lt _ _ i hi' Value.na []]
      | none =>
        simp only [h2]
        rw [getD_map_lt _ _ i hi' Value.na []]

set_option maxRecDepth 8000 in
/-- Witness for C6: a report carrying neither install column parses
without error and its record's Install Type is the sentinel `N/A`. -/
theorem install_type_precedence_witness :
    ((parsedRows (some noInstallReport) "2024-03-01").getD 0 []).getD 10 Value.na =
      Value.str "N/A" ∧
    (parsedRows (some noInstallReport) "2024-03-01").length = 1 := by
  constructor
  · have hmain := install_type_precedence noInstallReport "2024-03-01"
      ⟨canonical_header, parsedRows (some noInstallReport) "2024-03-01"⟩ rfl 0 (by decide)
    have e1 : colIdx noInstallReport "Installation Type" = none := by decide
    have e2 : colIdx noInstallReport "Install Event" = none := by decide
    rw [e1, e2] at hmain
    exact hmain
  · decide

/-! ## Claim C9 — calendar fields derived from the report date -/

/-- Claim C9: every record's Date, Year, Month, Week and Weekday fields
are functions of the report date alone — hence identical across all
records of one run: the date string itself, its year, its month, its ISO
week number, and its English weekday name. -/
theorem calendar_fields_from_report_date (txt date : String) (df : DataFrame) (y mo d : Nat)
    (h : parse_report (some txt) date = Except.ok df)
    (hd : parseDate date = Except.ok (y, mo, d)) :
    ∀ r ∈ df.rows,
      r.getD 0 Value.na = Value.str date ∧
      r.getD 1 Value.na = Value.int (y : Int) ∧
      r.getD 2 Value.na = Value.int (mo : Int) ∧
      r.getD 3 Value.na = Value.int ((isoWeek y mo d : Nat) : Int) ∧
      r.getD 4 Value.na = Value.str (weekdayName (weekdayMon0 y mo d)) := by
  rcases parse_ok_cases txt date df h with hdf | ⟨y2, mo2, d2, titleC, skuC, countryC, deviceC,
    unitsRaw, procRaw, priceC, currC, ptypeC, promoC, unitsC, procC, hDate, hTitle, hSku,
    hCountry, hDevice, hUnitsRaw, hUnits, hProcRaw, hProc, hPrice, hCurr, hPtype, hPromo,
    hdf⟩ <;> subst hdf
  · intro r hr
    simp at hr
  · have htriple : (y, mo, d) = (y2, mo2, d2) := Except.ok.inj (hd.symm.trans hDate)
    obtain ⟨rfl, rfl, rfl⟩ : y = y2 ∧ mo = mo2 ∧ d = d2 := by
      simpa [Prod.ext_iff] using htriple
    intro r hr
    simp only [List.mem_map, List.mem_range] at hr
    obtain ⟨i, hi, rfl⟩ := hr
    exact ⟨rfl, rfl, rfl, rfl, rfl⟩

set_option maxRecDepth 8000 in
/-- Witness for C9 on the specification scenario: report date
`2024-03-01` gives every record the weekday name `Friday`. -/
theorem calendar_fields_witness :
    ((parsedRows (some specReport) "2024-03-01").getD 0 []).getD 4 Value.na =
      Value.str (weekdayName (weekdayMon0 2024 3 1)) ∧
    weekdayName (weekdayMon0 2024 3 1) = "Friday" :=
  ⟨((calendar_fields_from_report_date specReport "2024-03-01"
      ⟨canonical_header, parsedRows (some specReport) "2024-03-01"⟩ 2024 3 1 rfl rfl)
     _ (by decide)).2.2.2.2,
   by decide⟩

/-! ## Claim C3 — missing required columns -/

set_option maxRecDepth 8000 in
/-- Claim C3, counterexample: in the report whose second data row lacks
a value for the required trailing `Promo Code` column, `parse_report`
does not fail the batch: pandas pads the short row with a missing value,
and both records are emitted — the second carrying a missing Promo Code
cell — with no error identifying the row or column. -/
theorem short_row_not_rejected :
    (parse_report (some shortRowReport) "2024-03-01").isOk = true ∧
    (parsedRows (some shortRowReport) "2024-03-01").length = 2 ∧
    ((parsedRows (some shortRowReport) "2024-03-01").getD 1 []).getD 16 Value.na = Value.na := by
  refine ⟨by decide, by decide, by decide⟩

/-- Claim C3, amended: a required source column missing from the report
header fails the whole batch — `parse_report` raises a `KeyError` naming
the missing column (though no row index), and emits no records; a data
row that is merely short of trailing fields is instead padded with
missing values and parsed without any error. -/
theorem missing_required_column_fails_batch (txt date : String)
    (hw : ¬(reportDataRows txt ≠ [] ∧ maxWidth (reportDataRows txt) ≠ (reportHeader txt).length))
    (hpt : ∃ j, colIdx txt "Product Type Identifier" = some j)
    (hti : colIdx txt "Title" = none)
    (hne : downloadRows txt ≠ []) :
    parse_report (some txt) date = Except.error (.keyError "Title") := by
  obtain ⟨j, hj⟩ := hpt
  have htxt : ¬(txt = "") := by
    intro he
    subst he
    exact hne (by decide)
  have hcol := col_error_of_absent txt "Title" hti
  simp only [parse_report, if_neg htxt, if_neg hw, hj, if_neg hne, hcol, except_bind_error]

set_option maxRecDepth 8000 in
/-- Witness for the amended C3: the concrete report without a `Title`
column is rejected whole, with the `KeyError` naming that column. -/
theorem missing_required_column_fails_batch_witness :
    parse_report (some noTitleReport) "2024-03-01" = Except.error (.keyError "Title") :=
  missing_required_column_fails_batch noTitleReport "2024-03-01" (by decide) ⟨0, by decide⟩
    (by decide) (by decide)
